import Mathlib

/-!
Shallow embedding of the answer-verify-fallback orchestration of
`main_v1.py` (project LLM_summacum).

Python strings are embedded as `List Char`; `str.lower()` as a map of
`Char.toLower` (the names involved are ASCII, where the two agree);
`str.startswith` as `List.isPrefixOf`; string concatenation as list append.
The external collaborators (retriever+LLM chain, groundedness verifier,
tool-call-mode LLM) are modelled as oracle functions bundled in a
`Services` structure; each oracle takes the index of the call (how many
calls to that service happened before) so that services whose answers vary
between calls are representable.  A Python expression that may raise is
modelled with `Except`.

A central fidelity point: `call_tool_func` is defined in the `Tools` class
body with the single parameter `tool_call` (line 166, no `self`), while its
only call site is the bound-method call `tool.call_tool_func(tool_call)`
at line 218.  That call passes the `Tools` instance as an extra positional
argument, so CPython raises `TypeError` before the function body (the
`globals()` lookup, the diagnostic, the `None` return) ever executes.  The
embedding therefore models the call site as unconditionally raising, and
keeps a separate embedding of the function body itself for counterfactual
statements about what the body computes on an argument.
-/

/-- Embedding of a Python `str` as its list of characters. -/
abbrev PyStr := List Char

/-- Character list of a Lean string literal, used to transcribe the Python
string literals of the source. -/
def lit (s : String) : PyStr := s.data

/-- Embedding of Python `str.lower()` (the source only ever lowercases
ASCII tool names and verdict strings, where `Char.toLower` matches
Python's mapping). -/
def pyLower (s : PyStr) : PyStr := s.map Char.toLower

/-- Embedding of Python `s.startswith(p)`. -/
def pyStartswith (s p : PyStr) : Bool := List.isPrefixOf p s

/-- A value `call_tool_func`'s body can return: Python `None`, or an
object whose `str()` image is the given string. -/
abbrev PyVal := Option PyStr

/-- Embedding of Python `str(v)`: `str(None)` is the four-character string
`"None"`; any other value is modelled by its `str()` image. -/
def pyStr (v : PyVal) : PyStr :=
  match v with
  | Option.none => lit "None"
  | Option.some s => s

/-- Argument mapping of a tool call (`tool_call["args"]`), opaque to the
orchestration logic. -/
abbrev PyArgs := List (PyStr × PyStr)

/-- Embedding of a LangChain tool call dict: `{name, args}`
(`main_v1.py` reads `tool_call["name"]` and `tool_call["args"]`). -/
structure ToolCall where
  name : PyStr
  args : PyArgs
deriving DecidableEq

/-- The names bound in the module's global namespace of `main_v1.py` once
the module body has executed: the imported names (lines 4-38), the
top-level classes and `main` (lines 45-229), and the interpreter-provided
dunder names.  Notably the tool methods `pdf_search` and `internet_search`
are attributes of the class `Tools` (lines 149-161) and are NOT module
globals, while the imported LangChain decorator `tool` (line 38) IS one. -/
def moduleGlobals : List PyStr :=
  [lit "os", lit "warnings", lit "pprint", lit "time",
   lit "load_dotenv", lit "OpenAI", lit "oracledb", lit "TavilyClient",
   lit "UpstageLayoutAnalysisLoader", lit "UpstageEmbeddings",
   lit "ChatUpstage", lit "UpstageGroundednessCheck",
   lit "HumanMessage", lit "SystemMessage",
   lit "oraclevs", lit "OracleVS", lit "DistanceStrategy",
   lit "BaseDocumentTransformer", lit "Document", lit "PromptTemplate",
   lit "LLMChain", lit "RunnablePassthrough", lit "StrOutputParser",
   lit "Language", lit "RecursiveCharacterTextSplitter", lit "tool",
   lit "DataLoader", lit "UpstageAPI", lit "OracleDB",
   lit "EmbeddingSettings", lit "LLMInvoker", lit "OracleDBIndex",
   lit "Tools", lit "main",
   lit "__name__", lit "__file__", lit "__doc__", lit "__package__",
   lit "__loader__", lit "__spec__", lit "__builtins__",
   lit "__annotations__"]

/-- The two-slot prompt template passed (as the same literal) to both
`invokellm` call sites (lines 200-203 and 220-223); the insignificant
leading whitespace of the Python triple-quoted literal is normalized.
The orchestration never inspects this value. -/
def promptTemplate : PyStr :=
  lit "Answer the question based only on the following context:\n{context}\nQuestion: {question}\n"

/-- The external services consumed by the orchestration, as call-indexed
oracles.  `invokellm` stands for the retriever+prompt+LLM chain of
`LLMInvoker.invokellm` (question and template to answer); `verify` for
`UpstageGroundednessCheck().invoke` (answer to verdict string);
`gen_tool_calls` for `llm_invoker.llm.invoke(user_input).tool_calls`;
`invoke_tool` for the `selected_tool.invoke(tool_call["args"])` expression
of line 173, which only the embedding of `call_tool_func`'s body consults
— the program itself never reaches it, because the line-218 call raises
before the body runs. -/
structure Services where
  invokellm : PyStr → PyStr → Nat → PyStr
  verify : PyStr → Nat → PyStr
  gen_tool_calls : PyStr → Nat → List ToolCall
  invoke_tool : PyStr → PyArgs → Nat → Except PyStr PyVal

/-- Embedding of `LLMInvoker.groundedness_check` (lines 128-131): invoke
the verifier on the response and test
`groundedness_result.lower().startswith("Grounded")`. -/
def groundedness_check (S : Services) (response : PyStr) (t : Nat) : Bool :=
  let groundedness_result := S.verify response t
  pyStartswith (pyLower groundedness_result) (lit "Grounded")

/-- Embedding of the BODY of `Tools.call_tool_func` (lines 166-173), i.e.
what the function computes on an argument bound to its one parameter:
lowercase the request's name, test membership in the module's global
namespace; on a miss print the diagnostic and return `None`; on a hit
invoke the found global object on the request's args.  The second
component counts the `invoke` calls made (0 on a miss, 1 on a hit).
The program never actually enters this body — see
`call_tool_func_line218` — so it serves counterfactual statements about
the function definition itself. -/
def call_tool_func (S : Services) (tool_call : ToolCall) (t : Nat) :
    Except PyStr PyVal × Nat :=
  let tool_name := pyLower tool_call.name
  if tool_name ∈ moduleGlobals then (S.invoke_tool tool_name tool_call.args t, 1)
  else (Except.ok Option.none, 0)

/-- The message of the exception the line-218 call raises. -/
def line218TypeError : PyStr :=
  lit "TypeError: call_tool_func() takes 1 positional argument but 2 were given"

/-- Embedding of the call expression `tool.call_tool_func(tool_call)` at
line 218.  `call_tool_func` is defined with the single parameter
`tool_call` (line 166, no `self`), and `tool` is a `Tools` instance
(line 193), so this bound-method call passes the instance as an extra
positional argument: CPython raises `TypeError` before the function body
runs, whatever the request is. -/
def call_tool_func_line218 (_tool_call : ToolCall) : Except PyStr PyVal :=
  Except.error line218TypeError

/-- Embedding of the aggregation loop of lines 216-218: `context = ""`
then `context += str(tool.call_tool_func(tool_call))` for each request in
order, the accumulator threaded on the left like the Python loop.  Each
iteration evaluates the line-218 call, which raises; the exception
propagates (there is no try/except in the source), so the append of the
`str()` image — kept here to mirror line 218's remaining structure — is
dead code for every request. -/
def buildContextAux : List ToolCall → PyStr → Except PyStr PyStr
  | [], context => Except.ok context
  | tool_call :: rest, context =>
      match call_tool_func_line218 tool_call with
      | Except.error e => Except.error e
      | Except.ok v => buildContextAux rest (context ++ pyStr v)

/-- The aggregated fallback context for one round of tool-call requests,
starting from the empty string as in line 216. -/
def build_context (tool_calls : List ToolCall) : Except PyStr PyStr :=
  buildContextAux tool_calls []

/-- Embedding of the probe loop of lines 208-211:
`for _ in range(3): tool_calls = llm.invoke(user_input).tool_calls ;
if tool_calls: break`, unrolled.  Returns the number of probes performed
together with the final value of `tool_calls`. -/
def probe (S : Services) (user_input : PyStr) (g : Nat) : Nat × List ToolCall :=
  let t1 := S.gen_tool_calls user_input g
  if t1 ≠ [] then (1, t1)
  else
    let t2 := S.gen_tool_calls user_input (g + 1)
    if t2 ≠ [] then (2, t2)
    else (3, S.gen_tool_calls user_input (g + 2))

/-- Per-service call counters: `llm` counts `invokellm` chain calls
(primary generation and regeneration), `ver` the verifier calls, `gen`
the tool-call-mode probes, `tool` the `selected_tool.invoke` calls (which
the program never makes, since line 218 raises first). -/
structure Counters where
  llm : Nat
  ver : Nat
  gen : Nat
  tool : Nat
deriving DecidableEq

/-- Componentwise sum of counters (used to advance the session's call
history by the calls one question consumed). -/
def addCounters (a b : Counters) : Counters :=
  ⟨a.llm + b.llm, a.ver + b.ver, a.gen + b.gen, a.tool + b.tool⟩

/-- What one question produces on stdout: a `Bot:` answer (line 205 or
224), the no-answer apology (line 213), or an uncaught Python exception
aborting the program. -/
inductive Outcome where
  | answered (text : PyStr)
  | apology
  | fatal (e : PyStr)
deriving DecidableEq

/-- Embedding of the per-question body of `main`'s while-loop
(lines 200-224).  Input `c` is the number of calls each service has
already received (oracle indices); the returned `Counters` are the calls
this question consumed.  Faithful to the source: the grounded branch
prints the primary response; otherwise up to 3 probes; if the final
`tool_calls` is empty, the apology; otherwise the aggregation loop of
lines 216-218 runs and its first iteration raises the line-218
`TypeError`, which propagates (the regeneration of lines 220-224 is kept
as the ok branch but is unreachable for the non-empty rounds that guard
it; had it run, it would call `invokellm` with the same template and
retriever-supplied context, never the local `context` string). -/
def processQuestion (S : Services) (user_input : PyStr) (c : Counters) :
    Outcome × Counters :=
  let response := S.invokellm user_input promptTemplate c.llm
  if groundedness_check S response c.ver then
    (Outcome.answered response, ⟨1, 1, 0, 0⟩)
  else
    let pr := probe S user_input c.gen
    if pr.2 = [] then
      (Outcome.apology, ⟨1, 1, pr.1, 0⟩)
    else
      match build_context pr.2 with
      | Except.error e => (Outcome.fatal e, ⟨1, 1, pr.1, 0⟩)
      | Except.ok _context =>
          let response2 := S.invokellm user_input promptTemplate (c.llm + 1)
          (Outcome.answered response2, ⟨2, 1, pr.1, 0⟩)

/-- How a session run ends: the user typed `exit`/`quit` (line 198's
`break`), the `break` at line 214 fired after the apology, an uncaught
exception aborted the program, or the scripted input lines ran out. -/
inductive SessionEnd where
  | userExit
  | fallbackBreak
  | crashed (e : PyStr)
  | inputsExhausted
deriving DecidableEq

/-- Embedding of `main`'s session loop (lines 196-224) over a script of
input lines: collect the per-question outcomes in order and report how
the loop ended.  Faithful to the source: the apology path executes the
`break` at line 214, which exits the `while True` loop, so no further
input line is read; an uncaught exception ends the program. -/
def runSession (S : Services) : List PyStr → Counters → List Outcome × SessionEnd
  | [], _ => ([], SessionEnd.inputsExhausted)
  | user_input :: rest, c =>
      if pyLower user_input = lit "exit" ∨ pyLower user_input = lit "quit" then
        ([], SessionEnd.userExit)
      else
        match processQuestion S user_input c with
        | (Outcome.answered r, d) =>
            let next := runSession S rest (addCounters c d)
            (Outcome.answered r :: next.1, next.2)
        | (Outcome.apology, _) => ([Outcome.apology], SessionEnd.fallbackBreak)
        | (Outcome.fatal m, _) => ([Outcome.fatal m], SessionEnd.crashed m)

/-- A service bundle is deterministic when every oracle's answer is
independent of the call index: the fixed-function services of the spec's
idempotence property. -/
def DeterministicServices (S : Services) : Prop :=
  (∀ q tpl t t', S.invokellm q tpl t = S.invokellm q tpl t') ∧
  (∀ r t t', S.verify r t = S.verify r t') ∧
  (∀ q t t', S.gen_tool_calls q t = S.gen_tool_calls q t') ∧
  (∀ n a t t', S.invoke_tool n a t = S.invoke_tool n a t')

/-- A concrete service bundle whose generator never proposes tool calls:
the verifier answers the verbatim Upstage verdict `notGrounded`, the chain
answers a fixed string, the (unreachable) invoke oracle returns `None`. -/
def svcEmptyProbes : Services :=
  ⟨fun _ _ _ => lit "A",
   fun _ _ => lit "notGrounded",
   fun _ _ => [],
   fun _ _ _ => Except.ok Option.none⟩

/-- A concrete service bundle whose verifier answers the verbatim Upstage
grounded verdict, `grounded`, on every call; the generator never proposes
tool calls. -/
def svcGroundedVerdict : Services :=
  ⟨fun _ _ _ => lit "A",
   fun _ _ => lit "grounded",
   fun _ _ => [],
   fun _ _ _ => Except.ok Option.none⟩

/-- The spec's example scenario as a concrete service bundle: the chain
answers a fixed unsupported reply, the verifier says `notGrounded`, the
first tool-call probe proposes one `internet_search` request, and the
(never reachable) invoke oracle would return the Seoul sentence. -/
def svcKorea : Services :=
  ⟨fun _ _ _ => lit "I do not know",
   fun _ _ => lit "notGrounded",
   fun _ _ => [ToolCall.mk (lit "internet_search") [(lit "query", lit "capital of Korea")]],
   fun _ _ _ => Except.ok (Option.some (lit "Seoul is the capital of South Korea."))⟩

/-- A concrete service bundle whose first probe proposes one request with
a name resolving against nothing (`web_search` is neither a registry tool
nor a module global). -/
def svcUnknownTool : Services :=
  ⟨fun _ _ _ => lit "A",
   fun _ _ => lit "notGrounded",
   fun _ _ => [ToolCall.mk (lit "web_search") []],
   fun _ _ _ => Except.ok Option.none⟩

/-- Lowercasing never produces the capital letter G. -/
theorem char_toLower_ne_G (c : Char) : Char.toLower c ≠ 'G' := by
  unfold Char.toLower
  show (if c.toNat ≥ 65 ∧ c.toNat ≤ 90 then Char.ofNat (c.toNat + 32) else c) ≠ 'G'
  by_cases h : c.toNat ≥ 65 ∧ c.toNat ≤ 90
  · rw [if_pos h]
    intro hEq
    obtain ⟨h1, h2⟩ := h
    obtain ⟨u, hu⟩ : ∃ u, c.toNat = u := ⟨c.toNat, rfl⟩
    rw [hu] at h1 h2 hEq
    interval_cases u <;> exact absurd hEq (by decide)
  · rw [if_neg h]
    intro hEq
    rw [hEq] at h
    exact h (by decide)

/-- The result of `.lower()` can never start with the literal
`"Grounded"`, whose first character is an upper-case G. -/
theorem pyLower_not_startswith_Grounded (s : PyStr) :
    pyStartswith (pyLower s) (lit "Grounded") = false := by
  cases s with
  | nil => rfl
  | cons c cs =>
    have hne : ('G' == Char.toLower c) = false := by
      have h := char_toLower_ne_G c
      simp only [beq_eq_false_iff_ne, ne_eq]
      exact fun hEq => h hEq.symm
    show List.isPrefixOf (lit "Grounded") (Char.toLower c :: cs.map Char.toLower) = false
    have hG : lit "Grounded" = 'G' :: lit "rounded" := rfl
    rw [hG, List.isPrefixOf_cons₂, hne, Bool.false_and]

/-- The groundedness check of the source is constantly false, whatever
string the verifier returns. -/
theorem groundedness_check_eq_false (S : Services) (response : PyStr) (t : Nat) :
    groundedness_check S response t = false :=
  pyLower_not_startswith_Grounded (S.verify response t)

/-- The probe loop performs between 1 and 3 probes. -/
theorem probe_fst_bounds (S : Services) (q : PyStr) (g : Nat) :
    1 ≤ (probe S q g).1 ∧ (probe S q g).1 ≤ 3 := by
  by_cases h1 : S.gen_tool_calls q g = [] <;>
    by_cases h2 : S.gen_tool_calls q (g + 1) = [] <;>
      simp [probe, h1, h2]

/-- The number of probes performed is the index of the first non-empty
result, capped at 3: the loop stops as soon as a probe succeeds. -/
theorem probe_stops_early (S : Services) (q : PyStr) (g : Nat) :
    (probe S q g).1 =
      (if S.gen_tool_calls q g ≠ [] then 1
       else if S.gen_tool_calls q (g + 1) ≠ [] then 2 else 3) := by
  by_cases h1 : S.gen_tool_calls q g = [] <;>
    by_cases h2 : S.gen_tool_calls q (g + 1) = [] <;>
      simp [probe, h1, h2]

/-- The probe loop is a function of the question alone when the tool-call
generator is index-independent. -/
theorem probe_indep (S : Services)
    (hg : ∀ q t t', S.gen_tool_calls q t = S.gen_tool_calls q t')
    (q : PyStr) (g g' : Nat) :
    probe S q g = probe S q g' := by
  simp only [probe]
  rw [hg q g g', hg q (g + 1) (g' + 1), hg q (g + 2) (g' + 2)]

/-- Claim C1 (code bug evidence).  The claim states that a question ending
in the FallbackExhausted apology never terminates the session loop and
that only `exit`/`quit` end it.  The code violates this: the `break` at
line 214 is inside the `else:` block of the `while True` loop (the `for`
probe loop has already ended at line 211), so after printing the apology
the session loop itself terminates.  Concretely: with a generator that
returns no tool calls, a two-question script ends after the first
question's apology with the line-214 break, and the second question is
never read; an `EXIT` input, by contrast, ends the loop through line 199. -/
theorem c1_apology_breaks_session_loop :
    runSession svcEmptyProbes [lit "q1", lit "q2"] ⟨0, 0, 0, 0⟩ =
      ([Outcome.apology], SessionEnd.fallbackBreak) ∧
    runSession svcEmptyProbes [lit "EXIT"] ⟨0, 0, 0, 0⟩ =
      ([], SessionEnd.userExit) :=
  ⟨rfl, rfl⟩

/-- Claim C2 (code bug evidence).  The claim states that when the Verifier
judges the primary answer grounded, the primary answer is printed and no
tool-call-mode generation happens.  The code violates this: even when the
verifier returns the verdict `grounded`, `groundedness_check` lowercases
it and tests `startswith("Grounded")`, which fails, so the orchestration
enters fallback — here the outcome is the apology and the `gen` counter
records 3 tool-call-mode probes instead of 0. -/
theorem c2_grounded_verdict_does_not_short_circuit :
    svcGroundedVerdict.verify (lit "A") 0 = lit "grounded" ∧
    processQuestion svcGroundedVerdict (lit "What is the capital of Korea?") ⟨0, 0, 0, 0⟩ =
      (Outcome.apology, ⟨1, 1, 3, 0⟩) :=
  ⟨rfl, rfl⟩

/-- Claim C3 (confirmed).  For every string the Verifier returns,
`groundedness_check` returns false — `.lower()` cannot produce a string
starting with the capitalized literal `"Grounded"` — and consequently the
grounded (DONE) branch of the orchestration is unreachable: every question
performs at least one tool-call probe (the grounded branch is the only one
with probe count 0). -/
theorem c3_grounded_branch_unreachable (S : Services) (response q : PyStr)
    (t : Nat) (c : Counters) :
    groundedness_check S response t = false ∧
    (processQuestion S q c).2.gen ≠ 0 := by
  refine ⟨groundedness_check_eq_false S response t, ?_⟩
  have hpf := probe_fst_bounds S q c.gen
  simp only [processQuestion, groundedness_check_eq_false, Bool.false_eq_true,
    if_false]
  by_cases hemp : (probe S q c.gen).2 = []
  · simp only [hemp, ite_true]
    omega
  · simp only [hemp, ite_false]
    rcases hbc : build_context (probe S q c.gen).2 with e | v <;>
      simp only [] <;> omega

/-- Claim C4 (confirmed).  When all 3 consecutive tool-call probes return
the empty sequence, the question ends in the no-answer apology and no
regeneration call is made: the consumed counters are exactly 1 `invokellm`
call (the primary generation only), 1 verification and 3 probes. -/
theorem c4_exhausted_probes_skip_regeneration (S : Services) (q : PyStr)
    (c : Counters)
    (h1 : S.gen_tool_calls q c.gen = [])
    (h2 : S.gen_tool_calls q (c.gen + 1) = [])
    (h3 : S.gen_tool_calls q (c.gen + 2) = []) :
    processQuestion S q c = (Outcome.apology, ⟨1, 1, 3, 0⟩) := by
  simp only [processQuestion, groundedness_check_eq_false, Bool.false_eq_true,
    if_false, probe, h1, h2, h3, ne_eq, not_true_eq_false, ite_false, ite_true]

/-- Witness for C4: a service whose generator proposes no tool calls on
any probe ends the question with the apology after 3 probes, one primary
generation and no regeneration. -/
theorem c4_exhausted_probes_skip_regeneration_witness :
    processQuestion svcEmptyProbes (lit "q") ⟨0, 0, 0, 0⟩ =
      (Outcome.apology, ⟨1, 1, 3, 0⟩) :=
  c4_exhausted_probes_skip_regeneration svcEmptyProbes (lit "q") ⟨0, 0, 0, 0⟩
    rfl rfl rfl

/-- Claim C5 (code bug evidence).  The claim states that a request whose
name does not resolve is diagnosed, contributes nothing, raises no fatal
error and does not abort the rest of the round.  The code violates all of
it at once: the round's only resolution call, `tool.call_tool_func(tool_call)`
at line 218, is a bound-method call that passes the `Tools` instance as an
extra positional argument to the one-parameter function, so `TypeError`
is raised before the unknown-tool branch can print the diagnostic or
return `None` — nothing is contributed, the round aborts on its first
request, and the uncaught exception ends the program (here: a round whose
single request is named `web_search`, ending the question in the fatal
outcome with no regeneration call, `llm` counter 1). -/
theorem c5_line218_raises_before_unknown_tool_branch :
    build_context [ToolCall.mk (lit "web_search") []] =
      Except.error line218TypeError ∧
    processQuestion svcUnknownTool (lit "q") ⟨0, 0, 0, 0⟩ =
      (Outcome.fatal line218TypeError, ⟨1, 1, 1, 0⟩) :=
  ⟨rfl, rfl⟩

/-- Counterexample to claim C6 as stated.  No resolved slot ever
contributes the string `None` to the fallback context: for a round whose
single request names the registry's own tool `pdf_search`, the aggregated
context is the line-218 `TypeError`, not a context holding `None` — the
bound-method call raises before `call_tool_func`'s lookup can run. -/
theorem c6_counterexample_no_None_reaches_context :
    build_context [ToolCall.mk (lit "pdf_search") []] =
      Except.error line218TypeError ∧
    Except.error line218TypeError ≠
      (Except.ok (lit "None") : Except PyStr PyStr) :=
  ⟨rfl, by simp⟩

/-- Claim C6 as amended.  The body of `call_tool_func`, had it been
entered, would indeed fail the module-globals lookup for every request
whose lowercased name is not a module-level binding — including the
registry's own tools `pdf_search` and `internet_search`, which are `Tools`
class attributes — and return `None`, whose `str()` is the four-character
string `None`.  But the function's only call site, line 218, raises
`TypeError` (bound method, extra positional argument) before the body
runs, so no resolved slot ever contributes `None` (or anything) to the
fallback context. -/
theorem c6_body_would_return_None_never_entered (S : Services)
    (tc : ToolCall) (t : Nat) (h : pyLower tc.name ∉ moduleGlobals) :
    call_tool_func S tc t = (Except.ok Option.none, 0) ∧
    pyStr Option.none = lit "None" ∧
    pyLower (lit "pdf_search") ∉ moduleGlobals ∧
    pyLower (lit "internet_search") ∉ moduleGlobals ∧
    call_tool_func_line218 tc = Except.error line218TypeError ∧
    build_context [tc] = Except.error line218TypeError := by
  refine ⟨?_, rfl, by decide, by decide, rfl, rfl⟩
  simp only [call_tool_func, if_neg h]

/-- Witness for the amended C6: at the registry's own tool name
`pdf_search`, the body would fail the lookup and return `None`, and the
line-218 call raises before that can happen. -/
theorem c6_body_would_return_None_never_entered_witness :
    call_tool_func svcEmptyProbes (ToolCall.mk (lit "pdf_search") []) 0 =
      (Except.ok Option.none, 0) ∧
    pyStr Option.none = lit "None" ∧
    pyLower (lit "pdf_search") ∉ moduleGlobals ∧
    pyLower (lit "internet_search") ∉ moduleGlobals ∧
    call_tool_func_line218 (ToolCall.mk (lit "pdf_search") []) =
      Except.error line218TypeError ∧
    build_context [ToolCall.mk (lit "pdf_search") []] =
      Except.error line218TypeError :=
  c6_body_would_return_None_never_entered svcEmptyProbes
    (ToolCall.mk (lit "pdf_search") []) 0 (by decide)

/-- Claim C7 (code bug evidence).  The claim states that a question whose
fallback obtains at least one request ends with the regenerated answer
built from the concatenated tool results, verified exactly once.  The code
produces no final output at all on such questions: in the spec's own Korea
scenario the first aggregation step raises the line-218 `TypeError`, so no
tool result is aggregated, no regeneration call is made (the `llm` counter
stays at 1, the single primary generation; `ver` stays at 1, the single
verification), and the uncaught exception ends the session.  (Even absent
the arity bug, the regeneration at lines 220-223 would re-fill the
template from the retriever, never from the local `context` string.) -/
theorem c7_typeerror_precedes_regeneration :
    processQuestion svcKorea (lit "What is the capital of Korea?") ⟨0, 0, 0, 0⟩ =
      (Outcome.fatal line218TypeError, ⟨1, 1, 1, 0⟩) ∧
    runSession svcKorea [lit "What is the capital of Korea?"] ⟨0, 0, 0, 0⟩ =
      ([Outcome.fatal line218TypeError],
        SessionEnd.crashed line218TypeError) :=
  ⟨rfl, rfl⟩

/-- Claim C8 (code bug evidence).  The claim states that for a fallback
round `[A, B, C]` the aggregated context text equals
`resolve(A) ++ resolve(B) ++ resolve(C)`.  The program never aggregates
anything: for every round `[A, B, C]`, whatever the three requests, the
loop's first iteration raises the line-218 `TypeError`, so no aggregated
ContextBundle is ever constructed and there is nothing that could equal
the ordered concatenation of the three resolutions. -/
theorem c8_no_aggregated_context_exists (A B C : ToolCall) :
    build_context [A, B, C] = Except.error line218TypeError :=
  rfl

/-- Claim C9 (confirmed).  Per question the orchestration consumes exactly
one verification, at least one and at most two `invokellm` calls (1
primary generation, at most 1 regeneration), and between 1 and 3
tool-call probes; and the probe loop stops retrying as soon as a probe
returns a non-empty sequence (the probe count is the index of the first
non-empty result, capped at 3).  Termination is inherent: the embedding
is a total function. -/
theorem c9_bounded_attempts_early_stop (S : Services) (q : PyStr) (c : Counters) :
    (1 ≤ (processQuestion S q c).2.llm ∧ (processQuestion S q c).2.llm ≤ 2) ∧
    (processQuestion S q c).2.ver = 1 ∧
    (1 ≤ (processQuestion S q c).2.gen ∧ (processQuestion S q c).2.gen ≤ 3) ∧
    (probe S q c.gen).1 =
      (if S.gen_tool_calls q c.gen ≠ [] then 1
       else if S.gen_tool_calls q (c.gen + 1) ≠ [] then 2 else 3) := by
  obtain ⟨hp1, hp2⟩ := probe_fst_bounds S q c.gen
  refine ⟨?_, ?_, ?_, probe_stops_early S q c.gen⟩
  all_goals
    simp only [processQuestion, groundedness_check_eq_false, Bool.false_eq_true,
      if_false]
    by_cases hemp : (probe S q c.gen).2 = []
    · simp [hemp] <;> omega
    · simp only [hemp, ite_false]
      rcases hbc : build_context (probe S q c.gen).2 with e | v <;>
        simp <;> omega

/-- Claim C10 (confirmed).  With deterministic (call-index-independent)
services, the per-question orchestration is the same function whatever the
prior call history: re-running the same question — in particular a second
run whose oracle indices continue where the first run stopped — yields the
same outcome (final output) and the same consumed call counters for every
service. -/
theorem c10_deterministic_rerun_equal (S : Services)
    (h : DeterministicServices S) (q : PyStr) (c c' : Counters) :
    processQuestion S q c = processQuestion S q c' := by
  obtain ⟨hl, hv, hg, hi⟩ := h
  have hgc : ∀ r u, groundedness_check S r u = false := fun r u =>
    groundedness_check_eq_false S r u
  simp only [processQuestion, hgc, Bool.false_eq_true, if_false]
  rw [hl q promptTemplate (c.llm + 1) (c'.llm + 1),
    probe_indep S hg q c.gen c'.gen]

/-- Witness for C10: the Korea-scenario services are deterministic, and
running the question with a fresh history and with the history left by a
first run (which consumed 1 chain call, 1 verification and 1 probe before
the fatal aggregation step) gives identical results. -/
theorem c10_deterministic_rerun_equal_witness :
    processQuestion svcKorea (lit "q") ⟨0, 0, 0, 0⟩ =
      processQuestion svcKorea (lit "q") ⟨1, 1, 1, 0⟩ :=
  c10_deterministic_rerun_equal svcKorea
    ⟨fun _ _ _ _ => rfl, fun _ _ _ => rfl, fun _ _ _ => rfl, fun _ _ _ _ => rfl⟩
    (lit "q") ⟨0, 0, 0, 0⟩ ⟨1, 1, 1, 0⟩
